import Mathlib

/-!
Shallow embedding of `src/PerformanceCounters.js` from
`sql-performance-counters-nodejs`.

A `PerformanceCounters` instance holds a map from canonicalized query
strings to metric records, a running-queries gauge and an optional latency
calibration value.  JavaScript numbers are modelled as `Int` where the code
can subtract below zero (durations, the gauge, the latency value) and as
`Nat` for record fields that are provably non-negative running sums given
the integer inputs the claims assume.  The JS expression
`Math.max(0, d - this._nLatencyMilliseconds)` coerces a `null` latency to
`0`, which is modelled by `Option.getD 0`.  `parseInt(total / count)` on
non-negative operands is floor division, modelled by `Nat` division
(which also yields `0` when the divisor is `0`, matching
`parseInt(0 / 0) = NaN` never arising because the count was just
incremented).  The external query normalizer `unparametrize_sql_query` is
out of scope per the spec and is a function parameter `norm`.
-/

/-- One metrics record, as created by `_queryMappings` and mutated by
`onResult` / `onError`. -/
structure MetricsRecord where
  successCount : Nat
  errorCount : Nat
  successMillisecondsTotal : Nat
  errorMillisecondsTotal : Nat
  successMillisecondsAverage : Nat
  errorMillisecondsAverage : Nat
  fetchedRows : Nat
  affectedRows : Nat
  changedRows : Nat
deriving Repr, DecidableEq

/-- The fresh record `_queryMappings` inserts on a miss. -/
def initialMetrics : MetricsRecord :=
  { successCount := 0
    errorCount := 0
    successMillisecondsTotal := 0
    errorMillisecondsTotal := 0
    successMillisecondsAverage := 0
    errorMillisecondsAverage := 0
    fetchedRows := 0
    affectedRows := 0
    changedRows := 0 }

/-- Engine state: the `Map` of metrics (as an association list in insertion
order), the currently-running-queries gauge and the latency calibration
(`null` modelled as `none`). -/
structure PerformanceCounters where
  mapQueryToMetrics : List (String × MetricsRecord)
  nCurrentlyRunningQueries : Int
  nLatencyMilliseconds : Option Int
deriving Repr, DecidableEq

namespace PerformanceCounters

/-- The constructor: empty map, gauge 0, no latency calibration. -/
def new : PerformanceCounters :=
  { mapQueryToMetrics := []
    nCurrentlyRunningQueries := 0
    nLatencyMilliseconds := none }

/-- `Map.get` on the metrics map. -/
def queryMappingsLookup (m : List (String × MetricsRecord)) (k : String) :
    Option MetricsRecord :=
  match m with
  | [] => none
  | (k', r) :: rest => if k' = k then some r else queryMappingsLookup rest k

/-- `_queryMappings` followed by an in-place mutation `f` of the returned
record: get-or-create the record for `k`, apply `f` to it, store it back. -/
def queryMappingsUpdate (m : List (String × MetricsRecord)) (k : String)
    (f : MetricsRecord → MetricsRecord) : List (String × MetricsRecord) :=
  match m with
  | [] => [(k, f initialMetrics)]
  | (k', r) :: rest =>
    if k' = k then (k', f r) :: rest
    else (k', r) :: queryMappingsUpdate rest k f

/-- `setLatency(nMilliseconds, bReset)`. -/
def setLatency (s : PerformanceCounters) (nMilliseconds : Int)
    (bReset : Bool) : PerformanceCounters :=
  match s.nLatencyMilliseconds with
  | none => { s with nLatencyMilliseconds := some nMilliseconds }
  | some c =>
    if bReset then { s with nLatencyMilliseconds := some nMilliseconds }
    else { s with nLatencyMilliseconds := some (min c nMilliseconds) }

/-- `onQuery()`: increments the running queries gauge. -/
def onQuery (s : PerformanceCounters) : PerformanceCounters :=
  { s with nCurrentlyRunningQueries := s.nCurrentlyRunningQueries + 1 }

/-- `Math.max(0, nDurationMilliseconds - this._nLatencyMilliseconds)`;
a `null` latency coerces to `0` in the JS subtraction. -/
def adjustDuration (lat : Option Int) (nDurationMilliseconds : Int) : Int :=
  max 0 (nDurationMilliseconds - lat.getD 0)

/-- `onResult(strQuery, nDurationMilliseconds, nFetchedRows, nAffectedRows,
nChangedRows)`.  `norm` is the external `unparametrize_sql_query`. -/
def onResult (s : PerformanceCounters) (norm : String → String)
    (strQuery : String) (nDurationMilliseconds : Int)
    (nFetchedRows nAffectedRows nChangedRows : Nat) : PerformanceCounters :=
  let nAdjusted := adjustDuration s.nLatencyMilliseconds nDurationMilliseconds
  let strKey := norm strQuery
  { s with
    nCurrentlyRunningQueries := max 0 (s.nCurrentlyRunningQueries - 1)
    mapQueryToMetrics := queryMappingsUpdate s.mapQueryToMetrics strKey
      (fun r =>
        let sc := r.successCount + 1
        let st := r.successMillisecondsTotal + nAdjusted.toNat
        { r with
          successCount := sc
          successMillisecondsTotal := st
          successMillisecondsAverage := st / sc
          fetchedRows := r.fetchedRows + nFetchedRows
          affectedRows := r.affectedRows + nAffectedRows
          changedRows := r.changedRows + nChangedRows }) }

/-- `onError(strQuery, nDurationMilliseconds, error)`.  The error argument
may be of any type and the body never reads it, exactly as in the source. -/
def onError {α : Type} (s : PerformanceCounters) (norm : String → String)
    (strQuery : String) (nDurationMilliseconds : Int) (error : α) :
    PerformanceCounters :=
  let nAdjusted := adjustDuration s.nLatencyMilliseconds nDurationMilliseconds
  let strKey := norm strQuery
  { s with
    nCurrentlyRunningQueries := max 0 (s.nCurrentlyRunningQueries - 1)
    mapQueryToMetrics := queryMappingsUpdate s.mapQueryToMetrics strKey
      (fun r =>
        let ec := r.errorCount + 1
        let et := r.errorMillisecondsTotal + nAdjusted.toNat
        { r with
          errorCount := ec
          errorMillisecondsTotal := et
          errorMillisecondsAverage := et / ec }) }

/-- `clear()`: empties the metrics map only. -/
def clear (s : PerformanceCounters) : PerformanceCounters :=
  { s with mapQueryToMetrics := [] }

/-- The `metrics` getter: the live map. -/
def metrics (s : PerformanceCounters) : List (String × MetricsRecord) :=
  s.mapQueryToMetrics

/-- The `metricsAsObject` getter: an object rebuilt by iterating the map's
keys and getting each entry. -/
def metricsAsObject (s : PerformanceCounters) :
    List (String × MetricsRecord) :=
  s.mapQueryToMetrics.map
    (fun p => (p.1, (queryMappingsLookup s.mapQueryToMetrics p.1).getD
      initialMetrics))

/-- The `runningQueriesCount` getter. -/
def runningQueriesCount (s : PerformanceCounters) : Int :=
  s.nCurrentlyRunningQueries

end PerformanceCounters

/-- One lifecycle hook invocation, for reasoning about arbitrary finite
call sequences.  The error value carried by `onError` is kept as a string
payload; by the source it is never inspected. -/
inductive Hook where
  | onQuery : Hook
  | onResult (strQuery : String) (nDurationMilliseconds : Int)
      (nFetchedRows nAffectedRows nChangedRows : Nat) : Hook
  | onError (strQuery : String) (nDurationMilliseconds : Int)
      (error : String) : Hook
  | clear : Hook
  | setLatency (nMilliseconds : Int) (bReset : Bool) : Hook
deriving Repr, DecidableEq

/-- Apply one hook call to the engine state. -/
def Hook.step (norm : String → String) (s : PerformanceCounters) :
    Hook → PerformanceCounters
  | .onQuery => s.onQuery
  | .onResult q d f a c => s.onResult norm q d f a c
  | .onError q d e => s.onError norm q d e
  | .clear => s.clear
  | .setLatency ms r => s.setLatency ms r

/-- Apply a finite sequence of hook calls in order. -/
def Hook.run (norm : String → String) (s : PerformanceCounters) :
    List Hook → PerformanceCounters
  | [] => s
  | h :: hs => Hook.run norm (Hook.step norm s h) hs

namespace PerformanceCounters

/-- Looking a key up after a get-or-create-and-mutate update: the updated
key holds `f` of the previous record (or of a fresh record), every other
key is untouched. -/
theorem queryMappingsLookup_update (m : List (String × MetricsRecord))
    (k k' : String) (f : MetricsRecord → MetricsRecord) :
    queryMappingsLookup (queryMappingsUpdate m k f) k' =
      if k' = k then
        some (f ((queryMappingsLookup m k).getD initialMetrics))
      else queryMappingsLookup m k' := by
  induction m with
  | nil =>
    by_cases h : k' = k
    · subst h; simp [queryMappingsUpdate, queryMappingsLookup]
    · simp [queryMappingsUpdate, queryMappingsLookup, h, Ne.symm h]
  | cons a rest ih =>
    obtain ⟨ka, ra⟩ := a
    by_cases hak : ka = k
    · subst hak
      by_cases h : k' = ka
      · subst h
        simp [queryMappingsUpdate, queryMappingsLookup]
      · simp [queryMappingsUpdate, queryMappingsLookup, h, Ne.symm h]
    · by_cases h : k' = ka
      · subst h
        have hk : ¬ k' = k := fun hh => hak (hh ▸ rfl)
        simp [queryMappingsUpdate, queryMappingsLookup, hak, hk]
      · simp [queryMappingsUpdate, queryMappingsLookup, hak, h,
          Ne.symm h, ih]

/-- Every record in an updated map satisfies `P` when the records before
did, `P` survives `f`, and `P` holds of a fresh record. -/
theorem mem_queryMappingsUpdate {P : MetricsRecord → Prop}
    (m : List (String × MetricsRecord)) (k : String)
    (f : MetricsRecord → MetricsRecord)
    (hf : ∀ r, P r → P (f r)) (h0 : P (f initialMetrics))
    (hm : ∀ p ∈ m, P p.2) :
    ∀ p ∈ queryMappingsUpdate m k f, P p.2 := by
  induction m with
  | nil =>
    intro p hp
    simp [queryMappingsUpdate] at hp
    subst hp
    exact h0
  | cons a rest ih =>
    obtain ⟨ka, ra⟩ := a
    intro p hp
    by_cases hak : ka = k
    · simp [queryMappingsUpdate, hak] at hp
      rcases hp with hp | hp
      · subst hp
        exact hf _ (hm (ka, ra) (by simp))
      · exact hm p (by simp [hp])
    · simp [queryMappingsUpdate, hak] at hp
      rcases hp with hp | hp
      · subst hp
        exact hm (ka, ra) (by simp)
      · exact ih (fun q hq => hm q (by simp [hq])) p hp

/-- `setLatency` leaves the metrics map untouched. -/
theorem setLatency_map_eq (s : PerformanceCounters) (ms : Int) (b : Bool) :
    (s.setLatency ms b).mapQueryToMetrics = s.mapQueryToMetrics := by
  unfold setLatency
  rcases s.nLatencyMilliseconds with _ | c
  · rfl
  · cases b <;> simp

/-- `setLatency` leaves the running-queries gauge untouched. -/
theorem setLatency_running_eq (s : PerformanceCounters) (ms : Int)
    (b : Bool) :
    (s.setLatency ms b).nCurrentlyRunningQueries =
      s.nCurrentlyRunningQueries := by
  unfold setLatency
  rcases s.nLatencyMilliseconds with _ | c
  · rfl
  · cases b <;> simp

end PerformanceCounters

namespace PerformanceCounters

/-- The derived-average invariant of one record: each stored average is the
floor of its total over its count (yielding 0 when the count is 0). -/
def averagesDerived (r : MetricsRecord) : Prop :=
  r.successMillisecondsAverage =
      r.successMillisecondsTotal / r.successCount ∧
  r.errorMillisecondsAverage = r.errorMillisecondsTotal / r.errorCount

/-- The fresh record satisfies the derived-average invariant. -/
theorem averagesDerived_initial : averagesDerived initialMetrics := by
  constructor <;> rfl

/-- Every record of every record in a state after one hook call satisfies
the derived-average invariant when the records before did. -/
theorem averagesDerived_step (norm : String → String)
    (s : PerformanceCounters) (h : Hook)
    (hs : ∀ p ∈ s.mapQueryToMetrics, averagesDerived p.2) :
    ∀ p ∈ (Hook.step norm s h).mapQueryToMetrics, averagesDerived p.2 := by
  cases h with
  | onQuery => exact hs
  | clear => intro p hp; simp [Hook.step, clear] at hp
  | setLatency ms b =>
    intro p hp
    rw [Hook.step, setLatency_map_eq] at hp
    exact hs p hp
  | onResult q d fr ar cr =>
    intro p hp
    refine mem_queryMappingsUpdate s.mapQueryToMetrics (norm q) _
      (fun r hr => ⟨rfl, hr.2⟩) ⟨rfl, averagesDerived_initial.2⟩ hs p hp
  | onError q d e =>
    intro p hp
    refine mem_queryMappingsUpdate s.mapQueryToMetrics (norm q) _
      (fun r hr => ⟨hr.1, rfl⟩) ⟨averagesDerived_initial.1, rfl⟩ hs p hp

/-- The derived-average invariant holds along any run from a state whose
records satisfy it. -/
theorem averagesDerived_run (norm : String → String) (hooks : List Hook)
    (s : PerformanceCounters)
    (hs : ∀ p ∈ s.mapQueryToMetrics, averagesDerived p.2) :
    ∀ p ∈ (Hook.run norm s hooks).mapQueryToMetrics, averagesDerived p.2 := by
  induction hooks generalizing s with
  | nil => exact hs
  | cons h hs' ih =>
    exact ih (Hook.step norm s h) (averagesDerived_step norm s h hs)

/-- One hook call keeps the running-queries gauge non-negative. -/
theorem running_nonneg_step (norm : String → String)
    (s : PerformanceCounters) (h : Hook)
    (hs : 0 ≤ s.nCurrentlyRunningQueries) :
    0 ≤ (Hook.step norm s h).nCurrentlyRunningQueries := by
  cases h with
  | onQuery => simpa [Hook.step, onQuery] using by omega
  | clear => exact hs
  | setLatency ms b => rw [Hook.step, setLatency_running_eq]; exact hs
  | onResult q d fr ar cr => exact le_max_left 0 _
  | onError q d e => exact le_max_left 0 _

/-- The running-queries gauge stays non-negative along any run from a state
where it is non-negative. -/
theorem running_nonneg_run (norm : String → String) (hooks : List Hook)
    (s : PerformanceCounters) (hs : 0 ≤ s.nCurrentlyRunningQueries) :
    0 ≤ (Hook.run norm s hooks).nCurrentlyRunningQueries := by
  induction hooks generalizing s with
  | nil => exact hs
  | cons h hs' ih =>
    exact ih (Hook.step norm s h) (running_nonneg_step norm s h hs)

/-- The touched-record invariant: at least one success or error has been
counted into every stored record. -/
def touchedRecord (r : MetricsRecord) : Prop :=
  1 ≤ r.successCount + r.errorCount

/-- One hook call keeps every stored record touched. -/
theorem touchedRecord_step (norm : String → String)
    (s : PerformanceCounters) (h : Hook)
    (hs : ∀ p ∈ s.mapQueryToMetrics, touchedRecord p.2) :
    ∀ p ∈ (Hook.step norm s h).mapQueryToMetrics, touchedRecord p.2 := by
  cases h with
  | onQuery => exact hs
  | clear => intro p hp; simp [Hook.step, clear] at hp
  | setLatency ms b =>
    intro p hp
    rw [Hook.step, setLatency_map_eq] at hp
    exact hs p hp
  | onResult q d fr ar cr =>
    intro p hp
    refine mem_queryMappingsUpdate s.mapQueryToMetrics (norm q) _
      ?_ ?_ hs p hp
    · intro r hr
      simp only [touchedRecord] at hr ⊢
      omega
    · simp [touchedRecord, initialMetrics]
  | onError q d e =>
    intro p hp
    refine mem_queryMappingsUpdate s.mapQueryToMetrics (norm q) _
      ?_ ?_ hs p hp
    · intro r hr
      simp only [touchedRecord] at hr ⊢
      omega
    · simp [touchedRecord, initialMetrics]

end PerformanceCounters

namespace PerformanceCounters

/-- The touched-record invariant holds along any run from a state whose
records satisfy it. -/
theorem touchedRecord_run (norm : String → String) (hooks : List Hook)
    (s : PerformanceCounters)
    (hs : ∀ p ∈ s.mapQueryToMetrics, touchedRecord p.2) :
    ∀ p ∈ (Hook.run norm s hooks).mapQueryToMetrics, touchedRecord p.2 := by
  induction hooks generalizing s with
  | nil => exact hs
  | cons h hs' ih =>
    exact ih (Hook.step norm s h) (touchedRecord_step norm s h hs)

/-- Whether the map holds a record for key `k` (`Map.has`). -/
def hasKey (m : List (String × MetricsRecord)) (k : String) : Bool :=
  (queryMappingsLookup m k).isSome

/-- A key is present exactly when some record is stored under it. -/
theorem hasKey_iff_exists (m : List (String × MetricsRecord)) (k : String) :
    hasKey m k = true ↔ ∃ r, (k, r) ∈ m := by
  induction m with
  | nil => simp [hasKey, queryMappingsLookup]
  | cons a rest ih =>
    obtain ⟨ka, ra⟩ := a
    by_cases h : ka = k
    · subst h
      simp only [hasKey, queryMappingsLookup, if_pos rfl, Option.isSome_some]
      constructor
      · intro _
        exact ⟨ra, by simp⟩
      · intro _
        rfl
    · simp only [hasKey, queryMappingsLookup, if_neg h]
      simp only [hasKey] at ih
      rw [ih]
      constructor
      · rintro ⟨r, hr⟩
        exact ⟨r, by simp [hr]⟩
      · rintro ⟨r, hr⟩
        rcases List.mem_cons.mp hr with heq | hmem
        · exact absurd (congrArg Prod.fst heq).symm h
        · exact ⟨r, hmem⟩

/-- The get-or-create update makes its key present and keeps every other
key's presence unchanged. -/
theorem hasKey_update (m : List (String × MetricsRecord)) (k' k : String)
    (f : MetricsRecord → MetricsRecord) :
    hasKey (queryMappingsUpdate m k' f) k = (decide (k = k') || hasKey m k) := by
  simp only [hasKey, queryMappingsLookup_update]
  by_cases h : k = k' <;> simp [h]

end PerformanceCounters

/-- One scan step for recorded-since-clear: `clear` forgets, a completion
hook whose canonical key is `k` records, everything else carries `b`. -/
def Hook.recordAcc (norm : String → String) (k : String) (b : Bool) :
    Hook → Bool
  | .onQuery => b
  | .onResult q _ _ _ _ => b || decide (norm q = k)
  | .onError q _ _ => b || decide (norm q = k)
  | .clear => false
  | .setLatency _ _ => b

/-- Whether, scanning a hook sequence left to right with accumulator `b`
(key `k` already recorded), some `onResult`/`onError` for canonical key `k`
has happened since the most recent `clear`. -/
def Hook.recordedSinceClear (norm : String → String) (k : String)
    (b : Bool) : List Hook → Bool
  | [] => b
  | h :: hs =>
    Hook.recordedSinceClear norm k (Hook.recordAcc norm k b h) hs

/-- Presence of key `k` after a run equals the recorded-since-clear scan of
the hook sequence, given the accumulator matches the starting state. -/
theorem hasKey_run_eq_recordedSinceClear (norm : String → String)
    (k : String) (hooks : List Hook) :
    ∀ (s : PerformanceCounters) (b : Bool),
      PerformanceCounters.hasKey s.mapQueryToMetrics k = b →
      PerformanceCounters.hasKey
          (Hook.run norm s hooks).mapQueryToMetrics k =
        Hook.recordedSinceClear norm k b hooks := by
  induction hooks with
  | nil =>
    intro s b hb
    simpa [Hook.run, Hook.recordedSinceClear] using hb
  | cons h hs ih =>
    intro s b hb
    rw [Hook.run]
    cases h with
    | onQuery =>
      rw [Hook.recordedSinceClear, Hook.recordAcc]
      exact ih _ _ hb
    | clear =>
      rw [Hook.recordedSinceClear, Hook.recordAcc]
      exact ih _ _ rfl
    | setLatency ms bReset =>
      rw [Hook.recordedSinceClear, Hook.recordAcc]
      refine ih _ _ ?_
      rw [Hook.step, PerformanceCounters.setLatency_map_eq]
      exact hb
    | onResult q d fr ar cr =>
      rw [Hook.recordedSinceClear, Hook.recordAcc]
      refine ih _ _ ?_
      rw [Hook.step]
      show PerformanceCounters.hasKey
        (PerformanceCounters.queryMappingsUpdate s.mapQueryToMetrics
          (norm q) _) k = _
      rw [PerformanceCounters.hasKey_update, hb, Bool.or_comm]
      have hd : decide (k = norm q) = decide (norm q = k) := by
        simp [eq_comm]
      rw [hd]
    | onError q d e =>
      rw [Hook.recordedSinceClear, Hook.recordAcc]
      refine ih _ _ ?_
      rw [Hook.step]
      show PerformanceCounters.hasKey
        (PerformanceCounters.queryMappingsUpdate s.mapQueryToMetrics
          (norm q) _) k = _
      rw [PerformanceCounters.hasKey_update, hb, Bool.or_comm]
      have hd : decide (k = norm q) = decide (norm q = k) := by
        simp [eq_comm]
      rw [hd]

/-- Claim C1: in every reachable engine state (any finite mutation sequence from
a fresh engine), every stored record's successMillisecondsAverage equals
floor(successMillisecondsTotal / successCount) (0 when successCount is 0),
and its errorMillisecondsAverage equals floor(errorMillisecondsTotal /
errorCount) (0 when errorCount is 0). -/
theorem C1_averages_always_derived (norm : String → String)
    (hooks : List Hook) (k : String) (r : MetricsRecord)
    (h : (k, r) ∈
      (Hook.run norm PerformanceCounters.new hooks).mapQueryToMetrics) :
    r.successMillisecondsAverage =
        r.successMillisecondsTotal / r.successCount ∧
    r.errorMillisecondsAverage = r.errorMillisecondsTotal / r.errorCount :=
  PerformanceCounters.averagesDerived_run norm hooks PerformanceCounters.new
    (by intro p hp; simp [PerformanceCounters.new] at hp) (k, r) h

/-- Witness for C1 at a concrete one-call run. -/
theorem C1_averages_always_derived_witness :
    (("SELECT 1",
        (⟨1, 0, 7, 0, 7, 0, 2, 0, 0⟩ : MetricsRecord)) ∈
      (Hook.run id PerformanceCounters.new
        [Hook.onResult "SELECT 1" 7 2 0 0]).mapQueryToMetrics) ∧
    ((⟨1, 0, 7, 0, 7, 0, 2, 0, 0⟩ :
        MetricsRecord).successMillisecondsAverage =
      (⟨1, 0, 7, 0, 7, 0, 2, 0, 0⟩ :
        MetricsRecord).successMillisecondsTotal /
        (⟨1, 0, 7, 0, 7, 0, 2, 0, 0⟩ : MetricsRecord).successCount ∧
     (⟨1, 0, 7, 0, 7, 0, 2, 0, 0⟩ :
        MetricsRecord).errorMillisecondsAverage =
      (⟨1, 0, 7, 0, 7, 0, 2, 0, 0⟩ :
        MetricsRecord).errorMillisecondsTotal /
        (⟨1, 0, 7, 0, 7, 0, 2, 0, 0⟩ : MetricsRecord).errorCount) :=
  ⟨by decide,
   C1_averages_always_derived id [Hook.onResult "SELECT 1" 7 2 0 0]
     "SELECT 1" ⟨1, 0, 7, 0, 7, 0, 2, 0, 0⟩ (by decide)⟩

/-- Claim C2: over every finite hook sequence from a fresh engine the
running-queries gauge is never negative; onQuery increments it by 1 and
onResult / onError decrement it with a floor at 0. -/
theorem C2_running_never_negative (norm : String → String)
    (hooks : List Hook) :
    0 ≤ (Hook.run norm
          PerformanceCounters.new hooks).nCurrentlyRunningQueries ∧
    (∀ s : PerformanceCounters,
       s.onQuery.nCurrentlyRunningQueries =
         s.nCurrentlyRunningQueries + 1) ∧
    (∀ (s : PerformanceCounters) (q : String) (d : Int) (fr ar cr : Nat),
       (s.onResult norm q d fr ar cr).nCurrentlyRunningQueries =
         max 0 (s.nCurrentlyRunningQueries - 1)) ∧
    (∀ (s : PerformanceCounters) (q : String) (d : Int) (e : String),
       (s.onError norm q d e).nCurrentlyRunningQueries =
         max 0 (s.nCurrentlyRunningQueries - 1)) :=
  ⟨PerformanceCounters.running_nonneg_run norm hooks
      PerformanceCounters.new le_rfl,
   fun _ => rfl, fun _ _ _ _ _ _ => rfl, fun _ _ _ _ => rfl⟩

/-- Claim C4: clear empties the metrics store (both the live map and the object
snapshot) and leaves the running-queries gauge and the calibrated latency
exactly as they were. -/
theorem C4_clear_resets_only_store (s : PerformanceCounters) :
    s.clear.metrics = [] ∧ s.clear.metricsAsObject = [] ∧
    s.clear.runningQueriesCount = s.runningQueriesCount ∧
    s.clear.nLatencyMilliseconds = s.nLatencyMilliseconds :=
  ⟨rfl, rfl, rfl, rfl⟩

/-- Claim C9: the error value handed to onError influences nothing: for any two
error values of any two types the resulting states are equal. -/
theorem C9_onError_ignores_error_value {α β : Type}
    (norm : String → String) (s : PerformanceCounters) (q : String)
    (d : Int) (e1 : α) (e2 : β) :
    s.onError norm q d e1 = s.onError norm q d e2 :=
  rfl

/-- Claim C10: onQuery increments the running-queries gauge by exactly 1 and
changes nothing else: the metrics store and the calibrated latency are
untouched. -/
theorem C10_onQuery_frame (s : PerformanceCounters) :
    s.onQuery.nCurrentlyRunningQueries = s.nCurrentlyRunningQueries + 1 ∧
    s.onQuery.mapQueryToMetrics = s.mapQueryToMetrics ∧
    s.onQuery.nLatencyMilliseconds = s.nLatencyMilliseconds :=
  ⟨rfl, rfl, rfl⟩

/-- Claim C5: setLatency stores ms unconditionally when no calibration is set or
reset is true, and min(current, ms) otherwise; in particular 50 then 80
without reset stays 50, while 80 with reset becomes 80. -/
theorem C5_setLatency_keeps_minimum (s : PerformanceCounters) (ms : Int)
    (bReset : Bool) :
    (s.setLatency ms bReset).nLatencyMilliseconds =
      some (match s.nLatencyMilliseconds, bReset with
            | none, _ => ms
            | some _, true => ms
            | some c, false => min c ms) ∧
    ((PerformanceCounters.new.setLatency 50 false).setLatency 80
        false).nLatencyMilliseconds = some 50 ∧
    ((PerformanceCounters.new.setLatency 50 false).setLatency 80
        true).nLatencyMilliseconds = some 80 := by
  refine ⟨?_, by decide, by decide⟩
  rcases hs : s.nLatencyMilliseconds with _ | c
  · simp [PerformanceCounters.setLatency, hs]
  · cases bReset <;> simp [PerformanceCounters.setLatency, hs]

/-- Claim C6: when no calibration has been set, the duration added to the totals
by onResult / onError is max(0, durationMs): the absent offset behaves as
0 in the subtraction. -/
theorem C6_missing_latency_behaves_as_zero (norm : String → String)
    (s : PerformanceCounters) (hlat : s.nLatencyMilliseconds = none)
    (q : String) (d : Int) (fr ar cr : Nat) (e : String) :
    PerformanceCounters.adjustDuration s.nLatencyMilliseconds d =
        max 0 d ∧
    ((PerformanceCounters.queryMappingsLookup
        (s.onResult norm q d fr ar cr).mapQueryToMetrics (norm q)).getD
          initialMetrics).successMillisecondsTotal =
      ((PerformanceCounters.queryMappingsLookup s.mapQueryToMetrics
          (norm q)).getD initialMetrics).successMillisecondsTotal +
        (max 0 d).toNat ∧
    ((PerformanceCounters.queryMappingsLookup
        (s.onError norm q d e).mapQueryToMetrics (norm q)).getD
          initialMetrics).errorMillisecondsTotal =
      ((PerformanceCounters.queryMappingsLookup s.mapQueryToMetrics
          (norm q)).getD initialMetrics).errorMillisecondsTotal +
        (max 0 d).toNat := by
  refine ⟨?_, ?_, ?_⟩
  · simp [PerformanceCounters.adjustDuration, hlat]
  · simp only [PerformanceCounters.onResult]
    rw [PerformanceCounters.queryMappingsLookup_update, if_pos rfl]
    simp [PerformanceCounters.adjustDuration, hlat]
  · simp only [PerformanceCounters.onError]
    rw [PerformanceCounters.queryMappingsLookup_update, if_pos rfl]
    simp [PerformanceCounters.adjustDuration, hlat]

/-- Witness for C6 on a fresh engine. -/
theorem C6_missing_latency_behaves_as_zero_witness :
    PerformanceCounters.new.nLatencyMilliseconds = none ∧
    (PerformanceCounters.adjustDuration
        PerformanceCounters.new.nLatencyMilliseconds 5 = max 0 5 ∧
     ((PerformanceCounters.queryMappingsLookup
         (PerformanceCounters.new.onResult id "q" 5 1 0
           0).mapQueryToMetrics (id "q")).getD
             initialMetrics).successMillisecondsTotal =
       ((PerformanceCounters.queryMappingsLookup
           PerformanceCounters.new.mapQueryToMetrics (id "q")).getD
             initialMetrics).successMillisecondsTotal +
         (max 0 (5 : Int)).toNat ∧
     ((PerformanceCounters.queryMappingsLookup
         (PerformanceCounters.new.onError id "q" 5
           "e").mapQueryToMetrics (id "q")).getD
             initialMetrics).errorMillisecondsTotal =
       ((PerformanceCounters.queryMappingsLookup
           PerformanceCounters.new.mapQueryToMetrics (id "q")).getD
             initialMetrics).errorMillisecondsTotal +
         (max 0 (5 : Int)).toNat) :=
  ⟨rfl, C6_missing_latency_behaves_as_zero id PerformanceCounters.new rfl
    "q" 5 1 0 0 "e"⟩

/-- Claim C7: a record exists for a canonical key iff a success or error for it
has been recorded since the most recent clear (or construction), and every
stored record has successCount + errorCount at least 1. -/
theorem C7_record_exists_iff_recorded (norm : String → String)
    (hooks : List Hook) (k : String) :
    ((∃ r, (k, r) ∈
        (Hook.run norm PerformanceCounters.new hooks).mapQueryToMetrics) ↔
      Hook.recordedSinceClear norm k false hooks = true) ∧
    (∀ r, (k, r) ∈
        (Hook.run norm PerformanceCounters.new hooks).mapQueryToMetrics →
      1 ≤ r.successCount + r.errorCount) := by
  constructor
  · rw [← PerformanceCounters.hasKey_iff_exists,
      hasKey_run_eq_recordedSinceClear norm k hooks
        PerformanceCounters.new false rfl]
  · intro r hr
    exact PerformanceCounters.touchedRecord_run norm hooks
      PerformanceCounters.new
      (by intro p hp; simp [PerformanceCounters.new] at hp) (k, r) hr

/-- Witness for C7 at a concrete one-call run. -/
theorem C7_record_exists_iff_recorded_witness :
    ((∃ r, ("q", r) ∈
        (Hook.run id PerformanceCounters.new
          [Hook.onError "q" 3 "e"]).mapQueryToMetrics) ↔
      Hook.recordedSinceClear id "q" false [Hook.onError "q" 3 "e"] =
        true) ∧
    (∀ r, ("q", r) ∈
        (Hook.run id PerformanceCounters.new
          [Hook.onError "q" 3 "e"]).mapQueryToMetrics →
      1 ≤ r.successCount + r.errorCount) :=
  C7_record_exists_iff_recorded id [Hook.onError "q" 3 "e"] "q"

/-- Claim C8: no hook other than clear ever decreases a key's successCount or
errorCount. -/
theorem C8_counts_monotone (norm : String → String)
    (s : PerformanceCounters) (h : Hook) (hne : h ≠ Hook.clear)
    (k : String) :
    ((PerformanceCounters.queryMappingsLookup s.mapQueryToMetrics k).getD
        initialMetrics).successCount ≤
      ((PerformanceCounters.queryMappingsLookup
          (Hook.step norm s h).mapQueryToMetrics k).getD
            initialMetrics).successCount ∧
    ((PerformanceCounters.queryMappingsLookup s.mapQueryToMetrics k).getD
        initialMetrics).errorCount ≤
      ((PerformanceCounters.queryMappingsLookup
          (Hook.step norm s h).mapQueryToMetrics k).getD
            initialMetrics).errorCount := by
  cases h with
  | clear => exact absurd rfl hne
  | onQuery => exact ⟨le_rfl, le_rfl⟩
  | setLatency ms b =>
    rw [Hook.step, PerformanceCounters.setLatency_map_eq]
    exact ⟨le_rfl, le_rfl⟩
  | onResult q d fr ar cr =>
    rw [Hook.step]
    simp only [PerformanceCounters.onResult]
    rw [PerformanceCounters.queryMappingsLookup_update]
    by_cases hk : k = norm q
    · subst hk
      rw [if_pos rfl]
      exact ⟨Nat.le_succ _, le_rfl⟩
    · rw [if_neg hk]
      exact ⟨le_rfl, le_rfl⟩
  | onError q d e =>
    rw [Hook.step]
    simp only [PerformanceCounters.onError]
    rw [PerformanceCounters.queryMappingsLookup_update]
    by_cases hk : k = norm q
    · subst hk
      rw [if_pos rfl]
      exact ⟨le_rfl, Nat.le_succ _⟩
    · rw [if_neg hk]
      exact ⟨le_rfl, le_rfl⟩

/-- Witness for C8 at a concrete non-clear hook. -/
theorem C8_counts_monotone_witness :
    Hook.onResult "q" 5 0 0 0 ≠ Hook.clear ∧
    (((PerformanceCounters.queryMappingsLookup
         PerformanceCounters.new.mapQueryToMetrics "q").getD
           initialMetrics).successCount ≤
       ((PerformanceCounters.queryMappingsLookup
           (Hook.step id PerformanceCounters.new
             (Hook.onResult "q" 5 0 0 0)).mapQueryToMetrics "q").getD
             initialMetrics).successCount ∧
     ((PerformanceCounters.queryMappingsLookup
         PerformanceCounters.new.mapQueryToMetrics "q").getD
           initialMetrics).errorCount ≤
       ((PerformanceCounters.queryMappingsLookup
           (Hook.step id PerformanceCounters.new
             (Hook.onResult "q" 5 0 0 0)).mapQueryToMetrics "q").getD
             initialMetrics).errorCount) :=
  ⟨by decide,
   C8_counts_monotone id PerformanceCounters.new
     (Hook.onResult "q" 5 0 0 0) (by decide) "q"⟩

/-- Claim C3: the end-to-end scenario with latency calibrated to 50: two
onQuery calls give gauge 2; onResult("SELECT 1 FROM table", 100, 3 rows)
has adjusted duration 50, gauge 1 and the expected success record; then
onError("SELECT 1 FROM another_table", 53, err) has adjusted duration 3,
gauge 0 and the expected error record. -/
theorem C3_end_to_end_scenario (norm : String → String)
    (h1 : norm "SELECT 1 FROM table" = "SELECT ? FROM table")
    (h2 : norm "SELECT 1 FROM another_table" =
      "SELECT ? FROM another_table") :
    ((PerformanceCounters.new.setLatency 50
        false).onQuery.onQuery).runningQueriesCount = 2 ∧
    PerformanceCounters.adjustDuration
        ((PerformanceCounters.new.setLatency 50
          false).onQuery.onQuery).nLatencyMilliseconds 100 = 50 ∧
    (((PerformanceCounters.new.setLatency 50
        false).onQuery.onQuery).onResult norm "SELECT 1 FROM table" 100 3
          0 0).runningQueriesCount = 1 ∧
    PerformanceCounters.queryMappingsLookup
        (((PerformanceCounters.new.setLatency 50
          false).onQuery.onQuery).onResult norm "SELECT 1 FROM table" 100
            3 0 0).mapQueryToMetrics "SELECT ? FROM table" =
      some ⟨1, 0, 50, 0, 50, 0, 3, 0, 0⟩ ∧
    PerformanceCounters.adjustDuration
        ((((PerformanceCounters.new.setLatency 50
          false).onQuery.onQuery).onResult norm "SELECT 1 FROM table" 100
            3 0 0)).nLatencyMilliseconds 53 = 3 ∧
    ((((PerformanceCounters.new.setLatency 50
        false).onQuery.onQuery).onResult norm "SELECT 1 FROM table" 100 3
          0 0).onError norm "SELECT 1 FROM another_table" 53
            "err").runningQueriesCount = 0 ∧
    PerformanceCounters.queryMappingsLookup
        ((((PerformanceCounters.new.setLatency 50
          false).onQuery.onQuery).onResult norm "SELECT 1 FROM table" 100
            3 0 0).onError norm "SELECT 1 FROM another_table" 53
              "err").mapQueryToMetrics "SELECT ? FROM another_table" =
      some ⟨0, 1, 0, 3, 0, 3, 0, 0, 0⟩ := by
  simp only [PerformanceCounters.onResult, PerformanceCounters.onError,
    h1, h2]
  decide

/-- A concrete normalizer with the two canonicalizations the scenario
assumes. -/
def normScenario : String → String := fun q =>
  if q = "SELECT 1 FROM table" then "SELECT ? FROM table"
  else if q = "SELECT 1 FROM another_table" then
    "SELECT ? FROM another_table"
  else q

/-- Witness for C3 at the concrete normalizer. -/
theorem C3_end_to_end_scenario_witness :
    normScenario "SELECT 1 FROM table" = "SELECT ? FROM table" ∧
    normScenario "SELECT 1 FROM another_table" =
      "SELECT ? FROM another_table" ∧
    (((PerformanceCounters.new.setLatency 50
        false).onQuery.onQuery).runningQueriesCount = 2 ∧
     PerformanceCounters.adjustDuration
        ((PerformanceCounters.new.setLatency 50
          false).onQuery.onQuery).nLatencyMilliseconds 100 = 50 ∧
     (((PerformanceCounters.new.setLatency 50
        false).onQuery.onQuery).onResult normScenario
          "SELECT 1 FROM table" 100 3 0 0).runningQueriesCount = 1 ∧
     PerformanceCounters.queryMappingsLookup
        (((PerformanceCounters.new.setLatency 50
          false).onQuery.onQuery).onResult normScenario
            "SELECT 1 FROM table" 100 3 0
              0).mapQueryToMetrics "SELECT ? FROM table" =
      some ⟨1, 0, 50, 0, 50, 0, 3, 0, 0⟩ ∧
     PerformanceCounters.adjustDuration
        ((((PerformanceCounters.new.setLatency 50
          false).onQuery.onQuery).onResult normScenario
            "SELECT 1 FROM table" 100 3 0
              0)).nLatencyMilliseconds 53 = 3 ∧
     ((((PerformanceCounters.new.setLatency 50
        false).onQuery.onQuery).onResult normScenario
          "SELECT 1 FROM table" 100 3 0 0).onError normScenario
            "SELECT 1 FROM another_table" 53
              "err").runningQueriesCount = 0 ∧
     PerformanceCounters.queryMappingsLookup
        ((((PerformanceCounters.new.setLatency 50
          false).onQuery.onQuery).onResult normScenario
            "SELECT 1 FROM table" 100 3 0 0).onError normScenario
              "SELECT 1 FROM another_table" 53
                "err").mapQueryToMetrics "SELECT ? FROM another_table" =
      some ⟨0, 1, 0, 3, 0, 3, 0, 0, 0⟩) :=
  ⟨by decide, by decide,
   C3_end_to_end_scenario normScenario (by decide) (by decide)⟩
